/-
Verification of the procedural starfield scene engine (chiboub.tn).

Shallow embedding of the generator, motion-model, shooting-star lifecycle
and adaptive-quality code.  JavaScript numbers are modelled as real numbers
(`ℝ`); the JS remainder operator `%` and `Math.atan2` are modelled explicitly
(`jsMod`, `jsAtan2`); `Math.random()` calls are passed in as explicit roll
parameters in `[0,1)`.  Rational constants (the colour-weight table, the
quality controller) are modelled over `ℚ` where the code never leaves
rational arithmetic.
-/
import Mathlib

namespace StarField

noncomputable section

/-- Truncation toward zero, as JS number-to-integer truncation behaves. -/
def rtrunc (x : ℝ) : ℤ := if 0 ≤ x then ⌊x⌋ else ⌈x⌉

/-- The JS remainder operator `a % b`: remainder of truncated division,
taking the sign of the dividend. -/
def jsMod (a b : ℝ) : ℝ := a - b * rtrunc (a / b)

/-- For a nonnegative dividend smaller than the (positive) divisor, the JS
remainder is the dividend itself. -/
theorem jsMod_eq_self (a b : ℝ) (h0 : 0 ≤ a) (hab : a < b) : jsMod a b = a := by
  have hb : 0 < b := lt_of_le_of_lt h0 hab
  have hq0 : 0 ≤ a / b := div_nonneg h0 hb.le
  have hq1 : a / b < 1 := (div_lt_one hb).mpr hab
  have : rtrunc (a / b) = 0 := by
    unfold rtrunc
    rw [if_pos hq0]
    exact Int.floor_eq_zero_iff.mpr ⟨hq0, hq1⟩
  simp [jsMod, this]

/-- Model of `Math.atan2(y, x)` (total, returning 0 at the origin as JS does
for `atan2(+0, +0)`). -/
def jsAtan2 (y x : ℝ) : ℝ :=
  if 0 < x then Real.arctan (y / x)
  else if x < 0 ∧ 0 ≤ y then Real.arctan (y / x) + Real.pi
  else if x < 0 then Real.arctan (y / x) - Real.pi
  else if 0 < y then Real.pi / 2
  else if y < 0 then -(Real.pi / 2)
  else 0

/-- An 8-bit-per-channel colour (source `types.ts`, interface `Color`). -/
structure Color where
  r : ℤ
  g : ℤ
  b : ℤ
deriving DecidableEq

/-- A generated background star (source `types.ts`, interface `Star`). -/
structure Star where
  x : ℝ
  y : ℝ
  size : ℝ
  brightness : ℝ
  twinkleSpeed : ℝ
  twinkleOffset : ℝ
  color : Color
  parallaxFactor : ℝ

/-- A shooting star (source `types.ts`, interface `ShootingStar`). -/
structure ShootingStar where
  x : ℝ
  y : ℝ
  angle : ℝ
  speed : ℝ
  length : ℝ
  brightness : ℝ
  life : ℝ
  decay : ℝ
  size : ℝ
  color : Color
  parallaxFactor : ℝ

/-- Star density factor (pixels per star), source `constants.ts`. -/
def STAR_DENSITY_FACTOR : ℝ := 600

/-- Galaxy count lower bound, source `constants.ts`. -/
def MIN_GALAXIES : ℤ := 100

/-- Galaxy count upper bound, source `constants.ts`. -/
def MAX_GALAXIES : ℤ := 200

/-- Nebula count lower bound, source `constants.ts`. -/
def MIN_NEBULAS : ℤ := 6

/-- Nebula count upper bound, source `constants.ts`. -/
def MAX_NEBULAS : ℤ := 12

/-- Realistic star colours by stellar classification, source `constants.ts`
`STAR_COLORS` (26 entries, O-class through the special types). -/
def STAR_COLORS : List Color :=
  [⟨146, 181, 255⟩, ⟨155, 176, 255⟩, ⟨162, 185, 255⟩,
   ⟨170, 191, 255⟩, ⟨175, 195, 255⟩, ⟨186, 204, 255⟩,
   ⟨202, 215, 255⟩, ⟨213, 224, 255⟩, ⟨230, 235, 255⟩,
   ⟨248, 247, 255⟩, ⟨252, 248, 245⟩, ⟨255, 249, 240⟩,
   ⟨255, 244, 234⟩, ⟨255, 241, 220⟩, ⟨255, 235, 200⟩,
   ⟨255, 224, 178⟩, ⟨255, 210, 161⟩, ⟨255, 198, 144⟩, ⟨255, 185, 120⟩,
   ⟨255, 170, 110⟩, ⟨255, 150, 90⟩, ⟨255, 130, 80⟩, ⟨255, 110, 70⟩,
   ⟨255, 255, 255⟩, ⟨250, 250, 255⟩, ⟨255, 252, 248⟩]

/-- Star colour weights, source `constants.ts` `STAR_COLOR_WEIGHTS`
(exact decimal values, kept as rationals). -/
def STAR_COLOR_WEIGHTS : List ℚ :=
  [0.001, 0.001, 0.002,
   0.01, 0.015, 0.02,
   0.03, 0.03, 0.03,
   0.04, 0.04, 0.04,
   0.05, 0.06, 0.05,
   0.06, 0.07, 0.07, 0.06,
   0.08, 0.08, 0.06, 0.04,
   0.05, 0.03, 0.02]

/-- Shooting star colours, source `constants.ts` `SHOOTING_STAR_COLORS`. -/
def SHOOTING_STAR_COLORS : List Color :=
  [⟨255, 255, 255⟩, ⟨255, 250, 240⟩, ⟨200, 255, 200⟩, ⟨150, 255, 150⟩,
   ⟨255, 255, 100⟩, ⟨255, 230, 150⟩, ⟨255, 200, 100⟩, ⟨255, 160, 80⟩,
   ⟨180, 220, 255⟩, ⟨160, 200, 255⟩, ⟨255, 100, 100⟩, ⟨255, 200, 150⟩,
   ⟨200, 180, 255⟩]

/-- Cumulative-weight selection loop of `getRandomStarColor`
(`colorUtils.ts`): walk the weight/colour table keeping a running
cumulative sum, returning the first colour whose cumulative weight
exceeds the random draw, or the fallback when the table is exhausted. -/
def weightedPick (random : ℝ) : ℝ → List (ℚ × Color) → Color → Color
  | _, [], fallback => fallback
  | cum, (w, c) :: rest, fallback =>
    if random < cum + (w : ℝ) then c else weightedPick random (cum + (w : ℝ)) rest fallback

/-- Per-channel variation step used by the colour utilities
(`colorUtils.ts`): `Math.min(255, Math.max(0, base + Math.floor((random - 0.5) * variance)))`. -/
def varyChannel (base : ℤ) (variance v : ℝ) : ℤ :=
  min 255 (max 0 (base + ⌊(v - 0.5) * variance⌋))

/-- Model of `getRandomStarColor` (`colorUtils.ts`): weighted base-colour
selection (fallback is the last table colour) followed by a ±10 per-channel
variation (variance 20); the `Math.random()` draws are `random`, `vr`, `vg`, `vb`. -/
def getRandomStarColor (random vr vg vb : ℝ) : Color :=
  let base := weightedPick random 0 (STAR_COLOR_WEIGHTS.zip STAR_COLORS) (STAR_COLORS.getLastD ⟨0, 0, 0⟩)
  ⟨varyChannel base.r 20 vr, varyChannel base.g 20 vg, varyChannel base.b 20 vb⟩

/-- Model of `getRandomShootingStarColor` (`colorUtils.ts`): uniform pick
from `SHOOTING_STAR_COLORS` followed by a ±15 per-channel variation
(variance 30). -/
def getRandomShootingStarColor (pick vr vg vb : ℝ) : Color :=
  let base := SHOOTING_STAR_COLORS.getD (⌊pick * (SHOOTING_STAR_COLORS.length : ℝ)⌋).toNat ⟨0, 0, 0⟩
  ⟨varyChannel base.r 30 vr, varyChannel base.g 30 vg, varyChannel base.b 30 vb⟩

/-- Random draws consumed by one iteration of the `initStars` loop
(`generators.ts`), one field per `Math.random()` call site. -/
structure StarRolls where
  sizeRoll : ℝ
  sizeR : ℝ
  bR : ℝ
  tR : ℝ
  xR : ℝ
  yR : ℝ
  oR : ℝ
  cPick : ℝ
  cR : ℝ
  cG : ℝ
  cB : ℝ

/-- Four-bucket star size distribution of `initStars` (`generators.ts`):
50% tiny, 30% small, 15% medium, 5% bright. -/
def starSize (sizeRoll sizeR : ℝ) : ℝ :=
  if sizeRoll < 0.5 then 0.2 + sizeR * 0.5
  else if sizeRoll < 0.8 then 0.5 + sizeR * 0.8
  else if sizeRoll < 0.95 then 1.0 + sizeR * 1.0
  else 1.8 + sizeR * 1.2

/-- Star parallax factor as a function of size (`generators.ts`, `initStars`):
`0.02 + (size / 3) * 0.08`. -/
def starParallaxFactor (size : ℝ) : ℝ := 0.02 + size / 3 * 0.08

/-- Body of one `initStars` loop iteration (`generators.ts`): size bucket,
brightness correlated with size plus noise (clamped to 1), parallax factor,
twinkle speed inversely correlated with size, uniform position. -/
def mkStar (width height : ℝ) (R : StarRolls) : Star :=
  let size := starSize R.sizeRoll R.sizeR
  let baseBrightness := 0.3 + size / 3 * 0.5
  { x := R.xR * width
    y := R.yR * height
    size := size
    brightness := min 1 (baseBrightness + (R.bR - 0.5) * 0.3)
    twinkleSpeed := 0.01 + R.tR * 0.05 + (1 - size / 3) * 0.02
    twinkleOffset := R.oR * Real.pi * 2
    color := getRandomStarColor R.cPick R.cR R.cG R.cB
    parallaxFactor := starParallaxFactor size }

/-- Model of `initStars` (`generators.ts`): `floor(width*height /
STAR_DENSITY_FACTOR)` stars, each built from its own rolls.  The variant in
the repository takes no density configuration. -/
def initStars (width height : ℝ) (rolls : ℕ → StarRolls) : List StarField.Star :=
  (List.range (⌊width * height / STAR_DENSITY_FACTOR⌋).toNat).map fun i => mkStar width height (rolls i)

/-- Five-bucket galaxy size distribution of `initGalaxies` (`generators.ts`),
simulating cosmic distance. -/
def galaxySize (distanceFactor sizeR : ℝ) : ℝ :=
  if distanceFactor < 0.35 then 3 + sizeR * 8
  else if distanceFactor < 0.55 then 10 + sizeR * 15
  else if distanceFactor < 0.75 then 25 + sizeR * 30
  else if distanceFactor < 0.9 then 55 + sizeR * 40
  else 95 + sizeR * 55

/-- Galaxy parallax factor as a function of size (`generators.ts`,
`initGalaxies`): `0.005 + (1 - galaxySize / 150) * 0.05`. -/
def galaxyParallaxFactor (size : ℝ) : ℝ := 0.005 + (1 - size / 150) * 0.05

/-- Size and parallax factor of one generated galaxy, the two structural
fields of `initGalaxies` (`generators.ts`) that the parallax design contract
speaks about. -/
structure GalaxyCore where
  size : ℝ
  parallaxFactor : ℝ

/-- Size/parallax core of one `initGalaxies` loop iteration
(`generators.ts`). -/
def mkGalaxyCore (distanceFactor sizeR : ℝ) : GalaxyCore :=
  { size := galaxySize distanceFactor sizeR
    parallaxFactor := galaxyParallaxFactor (galaxySize distanceFactor sizeR) }

/-- Galaxy count of `initGalaxies` (`generators.ts`): `MIN_GALAXIES +
Math.floor(Math.random() * (MAX_GALAXIES - MIN_GALAXIES + 1))`. -/
def numGalaxies (r : ℝ) : ℤ :=
  MIN_GALAXIES + ⌊r * ((MAX_GALAXIES : ℝ) - (MIN_GALAXIES : ℝ) + 1)⌋

/-- Nebula count of `initNebulas` (`generators.ts`): `MIN_NEBULAS +
Math.floor(Math.random() * (MAX_NEBULAS - MIN_NEBULAS + 1))`. -/
def numNebulas (r : ℝ) : ℤ :=
  MIN_NEBULAS + ⌊r * ((MAX_NEBULAS : ℝ) - (MIN_NEBULAS : ℝ) + 1)⌋

/-- Random draws consumed by one `createShootingStar` call
(`generators.ts`), one field per `Math.random()` call site. -/
structure SSRolls where
  edgeR : ℝ
  posR : ℝ
  angleR : ℝ
  speedRoll : ℝ
  speedR : ℝ
  sizeRoll : ℝ
  sizeR : ℝ
  lengthR : ℝ
  brightR : ℝ
  decayR : ℝ
  cPick : ℝ
  cR : ℝ
  cG : ℝ
  cB : ℝ
  pfR : ℝ

/-- Three-bucket shooting-star speed distribution (`generators.ts`,
`createShootingStar`): slow / medium / fast. -/
def shootingSpeed (speedRoll speedR : ℝ) : ℝ :=
  if speedRoll < 0.3 then 3 + speedR * 5
  else if speedRoll < 0.7 then 8 + speedR * 10
  else 18 + speedR * 12

/-- Three-bucket shooting-star size distribution (`generators.ts`,
`createShootingStar`): faint / normal / bright bolide. -/
def shootingSize (sizeRoll sizeR : ℝ) : ℝ :=
  if sizeRoll < 0.5 then 0.5 + sizeR * 1
  else if sizeRoll < 0.85 then 1.5 + sizeR * 1.5
  else 3 + sizeR * 2

/-- Model of `createShootingStar` (`generators.ts`): edge selection with a
50px margin and per-edge inward angle range, bucketed speed and size,
length derived from speed and size, `life = 1`, and
`decay = 0.002 + Math.random() * 0.015 + (speed / 30) * 0.01`. -/
def createShootingStar (width height : ℝ) (R : SSRolls) : ShootingStar :=
  let edge := ⌊R.edgeR * 4⌋
  let margin : ℝ := 50
  let startX :=
    if edge = 0 then R.posR * width
    else if edge = 1 then width + margin
    else if edge = 2 then R.posR * width
    else -margin
  let startY :=
    if edge = 0 then -margin
    else if edge = 1 then R.posR * height
    else if edge = 2 then height + margin
    else R.posR * height
  let angle :=
    if edge = 0 then Real.pi / 4 + R.angleR * Real.pi / 2
    else if edge = 1 then Real.pi * 0.6 + R.angleR * Real.pi * 0.6
    else if edge = 2 then -(Real.pi / 4) - R.angleR * Real.pi / 2
    else -(Real.pi / 4) + R.angleR * Real.pi / 2
  let speed := shootingSpeed R.speedRoll R.speedR
  let size := shootingSize R.sizeRoll R.sizeR
  { x := startX
    y := startY
    angle := angle
    speed := speed
    length := 30 + speed * 6 + size * 15 + R.lengthR * 50
    brightness := 0.6 + R.brightR * 0.4
    life := 1
    decay := 0.002 + R.decayR * 0.015 + speed / 30 * 0.01
    size := size
    color := getRandomShootingStarColor R.cPick R.cR R.cG R.cB
    parallaxFactor := 0.06 + R.pfR * 0.06 }

/-- Draw position computed for one nebula by `drawNebulas`
(`drawFunctions.ts`): initial phase `dist / maxDist` and angle from the
static position relative to the canvas centre, constant speed 0.05, linear
travel distance.  Mouse position is not used by this variant's position. -/
def drawNebulasPos (x y canvasWidth canvasHeight driftOffset : ℝ) : ℝ × ℝ :=
  let centerX := canvasWidth * 0.5
  let centerY := canvasHeight * 0.5
  let maxDist := Real.sqrt (centerX * centerX + centerY * centerY)
  let dx := x - centerX
  let dy := y - centerY
  let dist := Real.sqrt (dx * dx + dy * dy)
  let angle := jsAtan2 dy dx
  let initialPhase := dist / maxDist
  let speed : ℝ := 0.05
  let depthPhase := jsMod (initialPhase + driftOffset * speed) 1
  let travelDist := maxDist * depthPhase
  (centerX + Real.cos angle * travelDist, centerY + Real.sin angle * travelDist)

/-- Distance of a star's generated position from the canvas centre
(`origDist` in the earlier radial-drift `drawStars` variant). -/
def origDist (x y canvasWidth canvasHeight : ℝ) : ℝ :=
  Real.sqrt ((x - canvasWidth * 0.5) * (x - canvasWidth * 0.5) +
             (y - canvasHeight * 0.5) * (y - canvasHeight * 0.5))

/-- The `maxRadius` of the earlier radial-drift `drawStars` variant:
distance from centre to corner times 1.2. -/
def maxRadiusV0 (canvasWidth canvasHeight : ℝ) : ℝ :=
  Real.sqrt (canvasWidth * 0.5 * (canvasWidth * 0.5) +
             canvasHeight * 0.5 * (canvasHeight * 0.5)) * 1.2

/-- Draw position computed for one star by the earlier radial-drift
`drawStars` variant: direction from the static position relative to centre,
base phase `origDist / maxRadius`, speed `0.5 + parallaxFactor * 1.5`,
mouse parallax added on top; a star within one pixel of the centre gets
only the parallax offset. -/
def drawStarsPosV0 (star : Star) (mouseX mouseY canvasWidth canvasHeight driftOffset : ℝ) : ℝ × ℝ :=
  let halfWidth := canvasWidth * 0.5
  let halfHeight := canvasHeight * 0.5
  let centerX := halfWidth
  let centerY := halfHeight
  let maxRadius := maxRadiusV0 canvasWidth canvasHeight
  let origDx := star.x - centerX
  let origDy := star.y - centerY
  let d := origDist star.x star.y canvasWidth canvasHeight
  if 1 < d then
    let dirX := origDx / d
    let dirY := origDy / d
    let basePhase := d / maxRadius
    let speed := 0.5 + star.parallaxFactor * 1.5
    let depthPhase := jsMod (basePhase + driftOffset * speed) 1
    let travelDist := depthPhase * maxRadius
    (centerX + dirX * travelDist + mouseX * star.parallaxFactor * halfWidth,
     centerY + dirY * travelDist + mouseY * star.parallaxFactor * halfHeight)
  else
    (star.x + mouseX * star.parallaxFactor * halfWidth,
     star.y + mouseY * star.parallaxFactor * halfHeight)

/-- The active set of `drawShootingStars` (`drawFunctions.ts`): the input
pool filtered to stars with `life > 0`; only these are ticked and drawn. -/
def activeShootingStars (shootingStars : List ShootingStar) : List ShootingStar :=
  shootingStars.filter fun star => decide (0 < star.life)

/-- One tick of `drawShootingStars` (`drawFunctions.ts`) on one star:
`x += cos(angle) * speed`, `y += sin(angle) * speed`, `life -= decay`. -/
def tickShootingStar (star : ShootingStar) : ShootingStar :=
  { star with
    x := star.x + Real.cos star.angle * star.speed
    y := star.y + Real.sin star.angle * star.speed
    life := star.life - star.decay }

/-- State effect of one `drawShootingStars` call (`drawFunctions.ts`):
filter to the living, then advance each survivor one tick; the updated
active list is returned to the caller. -/
def drawShootingStarsStep (shootingStars : List ShootingStar) : List ShootingStar :=
  (activeShootingStars shootingStars).map tickShootingStar

/-- One measurement-window update of the adaptive quality controller
(`StarField.tsx`, `animate`): `fps < 30 && quality > 0.2` steps down by 0.1,
else `fps > 55 && quality < 1.0` steps up by 0.05. -/
def qualityStep (fps : ℕ) (quality : ℚ) : ℚ :=
  if fps < 30 ∧ 1/5 < quality then quality - 1/10
  else if 55 < fps ∧ quality < 1 then quality + 1/20
  else quality

/-- Shooting-star section of one `animate` frame (`StarField.tsx`):
when `quality > 0.6`, run `drawShootingStars` and then spawn one new star
if the timer elapsed and the pool is below `maxShootingStars`; otherwise
only filter out dead stars and spawn nothing.  `newStar` stands for the
`createShootingStar` result and `delay` for `getNextShootingStarDelay()`. -/
def shootingFrame (maxShootingStars : ℕ) (quality time delay : ℝ) (newStar : ShootingStar)
    (st : List ShootingStar × ℝ) : List ShootingStar × ℝ :=
  if 3/5 < quality then
    let updated := drawShootingStarsStep st.1
    if st.2 ≤ time ∧ updated.length < maxShootingStars then
      (updated ++ [newStar], time + delay)
    else
      (updated, st.2)
  else
    (st.1.filter fun s => decide (0 < s.life), st.2)

/-- Inputs of one `animate` frame that the shooting-star section consumes:
quality, current time, next-spawn delay and the freshly created star. -/
structure FrameInput where
  quality : ℝ
  time : ℝ
  delay : ℝ
  newStar : ShootingStar

/-- The shooting-star pool state after a sequence of `animate` frames,
starting from an empty pool (`shootingStars = []` in `StarField.tsx`). -/
def runFrames (maxShootingStars : ℕ) (frames : List FrameInput) (next0 : ℝ) :
    List ShootingStar × ℝ :=
  frames.foldl
    (fun st f => shootingFrame maxShootingStars f.quality f.time f.delay f.newStar st)
    ([], next0)

/-- Modelled from the spec: the star count contract of `generateStars` in
the words of the specification, used only to compare the spec's
config-scaled formula against the actual generator (`initStars` takes no
configuration).  The spec says the count is `floor(width*height /
densityFactor)` with `densityFactor` scaled by
`config.starDensityMultiplier`; a multiplier of m rescales the density
factor to `STAR_DENSITY_FACTOR / m` (so `0.5` means 50% of base density,
as the configuration tables describe). -/
def specStarCount (width height multiplier : ℝ) : ℤ :=
  ⌊width * height / (STAR_DENSITY_FACTOR / multiplier)⌋

/-- One controller window preserves the invariant that quality is
`3/20 + k/20` for some `k ≤ 17` (the reachable 0.05-grid from the initial
quality 1.0, floored at 0.15). -/
theorem qualityStep_invariant (fps : ℕ) (q : ℚ)
    (h : ∃ k : ℕ, k ≤ 17 ∧ q = 3/20 + k/20) :
    ∃ k : ℕ, k ≤ 17 ∧ qualityStep fps q = 3/20 + k/20 := by
  obtain ⟨k, hk, rfl⟩ := h
  unfold qualityStep
  split_ifs with h1 h2
  · have hk2 : 2 ≤ k := by
      have h15 : (1 : ℚ) < (k : ℚ) := by linarith [h1.2]
      have : 1 < k := by exact_mod_cast h15
      omega
    refine ⟨k - 2, by omega, ?_⟩
    have : ((k - 2 : ℕ) : ℚ) = (k : ℚ) - 2 := by
      push_cast [Nat.cast_sub hk2]
      ring
    rw [this]; ring
  · have hk17 : k < 17 := by
      have h17 : (k : ℚ) < 17 := by linarith [h2.2]
      exact_mod_cast h17
    exact ⟨k + 1, by omega, by push_cast; ring⟩
  · exact ⟨k, hk, rfl⟩

/-- Folding controller windows from a state on the reachable grid stays on
the reachable grid. -/
theorem qualityFold_invariant (trace : List ℕ) (q : ℚ)
    (h : ∃ k : ℕ, k ≤ 17 ∧ q = 3/20 + k/20) :
    ∃ k : ℕ, k ≤ 17 ∧
      List.foldl (fun cur fps => qualityStep fps cur) q trace = 3/20 + k/20 := by
  induction trace generalizing q with
  | nil => simpa using h
  | cons f t ih => exact ih (qualityStep f q) (qualityStep_invariant f q h)

/-- Claim C3, counterexample: starting from the initial quality 1.0, the fps
trace 29,29,29,29,29,29,29,60,29,29 (one value per 1-second window) drives
the quality to 0.15, strictly below the claimed floor 0.2: after the
recovery step to 0.35, two low-fps windows pass the `quality > 0.2` guard
at 0.35 and 0.25 and land at 0.15. -/
theorem quality_floor_counterexample :
    List.foldl (fun cur fps => qualityStep fps cur) 1
        [29, 29, 29, 29, 29, 29, 29, 60, 29, 29] = 3/20 ∧
      (3/20 : ℚ) < 1/5 := by
  norm_num [List.foldl, qualityStep]

/-- Claim C3 (corrected): each 1-second window changes quality at most once,
by a 0.1 decrease (only when `fps < 30` and the guard `quality > 0.2`
holds) or by the strictly smaller 0.05 increase (only when `fps > 55` and
`quality < 1.0`); for every fps trace starting from the initial quality
1.0 the quality stays in [0.15, 1.0] — the true floor is 0.15, not 0.2,
because the guard admits a decrease from 0.25. -/
theorem qualityStep_bounds :
    (∀ (fps : ℕ) (q : ℚ),
        qualityStep fps q = q ∨ qualityStep fps q = q - 1/10 ∨
          qualityStep fps q = q + 1/20) ∧
      ∀ trace : List ℕ,
        3/20 ≤ List.foldl (fun cur fps => qualityStep fps cur) 1 trace ∧
          List.foldl (fun cur fps => qualityStep fps cur) 1 trace ≤ 1 := by
  constructor
  · intro fps q
    unfold qualityStep
    split_ifs <;> tauto
  · intro trace
    obtain ⟨k, hk, hq⟩ :=
      qualityFold_invariant trace 1 ⟨17, le_refl 17, by norm_num⟩
    have hk0 : (0 : ℚ) ≤ (k : ℚ) := by positivity
    have hk17 : (k : ℚ) ≤ 17 := by exact_mod_cast hk
    constructor <;> rw [hq] <;> linarith

/-- Claim C9, counterexample: the star-colour weight table does not sum
to 1 in exact rational arithmetic. -/
theorem starColorWeights_sum_ne_one : STAR_COLOR_WEIGHTS.sum ≠ 1 := by
  norm_num [STAR_COLOR_WEIGHTS]

/-- Claim C9 (corrected): the star-colour weight table sums to 1039/1000,
strictly more than 1; its first 25 entries already sum to 1019/1000 ≥ 1,
so cumulative sampling with a draw in `[0,1)` always selects one of the
first 25 colours and the final table entry is unreachable. -/
theorem starColorWeights_sum :
    STAR_COLOR_WEIGHTS.sum = 1039/1000 ∧ 1 < STAR_COLOR_WEIGHTS.sum ∧
      (STAR_COLOR_WEIGHTS.take 25).sum = 1019/1000 ∧
        1 ≤ (STAR_COLOR_WEIGHTS.take 25).sum := by
  norm_num [STAR_COLOR_WEIGHTS, List.take]

/-- Claim C6 (confirmed): one `drawShootingStars` tick advances each active
star's position by exactly `(cos(angle), sin(angle)) * speed` and decreases
its life by exactly `decay`; a star whose life is already ≤ 0 is absent
from the active set used for drawing, and every active star's successor is
in the returned pool. -/
theorem drawShootingStars_tick (shootingStars : List ShootingStar) (star : ShootingStar) :
    (star.life ≤ 0 → star ∉ activeShootingStars shootingStars) ∧
      (star ∈ activeShootingStars shootingStars →
        tickShootingStar star ∈ drawShootingStarsStep shootingStars) ∧
      (tickShootingStar star).x = star.x + Real.cos star.angle * star.speed ∧
      (tickShootingStar star).y = star.y + Real.sin star.angle * star.speed ∧
      (tickShootingStar star).life = star.life - star.decay := by
  refine ⟨?_, ?_, rfl, rfl, rfl⟩
  · intro hle hmem
    have hpos : 0 < star.life := by
      have := (List.mem_filter.mp hmem).2
      simpa using this
    linarith
  · intro hmem
    exact List.mem_map_of_mem _ hmem

/-- Claim C6, witness: a concrete alive star is ticked into the returned
pool, and a concrete dead star (life −1) is absent from the active set. -/
theorem drawShootingStars_tick_witness :
    tickShootingStar ⟨0, 0, 0, 10, 100, 1, 1, 0.01, 1, ⟨255, 255, 255⟩, 0.1⟩ ∈
        drawShootingStarsStep [⟨0, 0, 0, 10, 100, 1, 1, 0.01, 1, ⟨255, 255, 255⟩, 0.1⟩] ∧
      (⟨0, 0, 0, 10, 100, 1, -1, 0.01, 1, ⟨255, 255, 255⟩, 0.1⟩ : ShootingStar) ∉
        activeShootingStars [⟨0, 0, 0, 10, 100, 1, -1, 0.01, 1, ⟨255, 255, 255⟩, 0.1⟩] := by
  constructor
  · apply (drawShootingStars_tick
      [⟨0, 0, 0, 10, 100, 1, 1, 0.01, 1, ⟨255, 255, 255⟩, 0.1⟩]
      ⟨0, 0, 0, 10, 100, 1, 1, 0.01, 1, ⟨255, 255, 255⟩, 0.1⟩).2.1
    apply List.mem_filter.mpr
    refine ⟨List.mem_singleton_self _, ?_⟩
    simp only [decide_eq_true_eq]
    norm_num
  · apply (drawShootingStars_tick
      [⟨0, 0, 0, 10, 100, 1, -1, 0.01, 1, ⟨255, 255, 255⟩, 0.1⟩]
      ⟨0, 0, 0, 10, 100, 1, -1, 0.01, 1, ⟨255, 255, 255⟩, 0.1⟩).1
    show (-1 : ℝ) ≤ 0
    norm_num

/-- One `animate` frame cannot push the shooting-star pool above the
configured cap when it starts at or below the cap. -/
theorem shootingFrame_length (maxS : ℕ) (q t d : ℝ) (ns : ShootingStar)
    (st : List ShootingStar × ℝ) (h : st.1.length ≤ maxS) :
    (shootingFrame maxS q t d ns st).1.length ≤ maxS := by
  have hstep : (drawShootingStarsStep st.1).length ≤ st.1.length := by
    simp only [drawShootingStarsStep, activeShootingStars, List.length_map]
    exact List.length_filter_le _ _
  simp only [shootingFrame]
  by_cases h1 : 3/5 < q
  · rw [if_pos h1]
    by_cases h2 : st.2 ≤ t ∧ (drawShootingStarsStep st.1).length < maxS
    · rw [if_pos h2]
      have hlt : (drawShootingStarsStep st.1).length < maxS := h2.2
      simp only [List.length_append, List.length_singleton]
      omega
    · rw [if_neg h2]
      exact le_trans hstep h
  · rw [if_neg h1]
    exact le_trans (List.length_filter_le _ _) h

/-- Folding `animate` frames preserves the pool-size bound. -/
theorem runFrames_aux (maxS : ℕ) (frames : List FrameInput) (st : List ShootingStar × ℝ)
    (h : st.1.length ≤ maxS) :
    (frames.foldl (fun acc f => shootingFrame maxS f.quality f.time f.delay f.newStar acc)
        st).1.length ≤ maxS := by
  induction frames generalizing st with
  | nil => simpa using h
  | cons f t ih => exact ih _ (shootingFrame_length maxS f.quality f.time f.delay f.newStar st h)

/-- Claim C4 (confirmed): starting from the empty pool, after any sequence
of `animate` frames the number of live shooting stars never exceeds
`maxShootingStars`; a spawn whose timer elapsed while the pool is at
capacity is skipped, not queued. -/
theorem shootingStar_pool_bound (maxS : ℕ) (frames : List FrameInput) (next0 : ℝ) :
    (runFrames maxS frames next0).1.length ≤ maxS := by
  unfold runFrames
  exact runFrames_aux maxS frames ([], next0) (by simp)

/-- Claim C5 (corrected): while quality is at or below the 0.6 gate, a
frame spawns nothing and keeps every alive shooting star — but it keeps it
with its state (in particular its life) unchanged, merely filtering out the
dead; life decreases only on frames whose quality exceeds 0.6. -/
theorem lowQuality_freezes (maxS : ℕ) (q t d : ℝ) (ns : ShootingStar)
    (pool : List ShootingStar) (next : ℝ) (hq : q ≤ 3/5) :
    (shootingFrame maxS q t d ns (pool, next)).1 =
        pool.filter (fun s => decide (0 < s.life)) ∧
      (shootingFrame maxS q t d ns (pool, next)).2 = next ∧
      ∀ s ∈ pool, 0 < s.life → s ∈ (shootingFrame maxS q t d ns (pool, next)).1 := by
  have hq' : ¬(3/5 < q) := not_lt.mpr hq
  unfold shootingFrame
  rw [if_neg hq']
  refine ⟨rfl, rfl, ?_⟩
  intro s hs hlife
  exact List.mem_filter.mpr ⟨hs, by simpa using hlife⟩

/-- Claim C5, witness: at quality 1/2 a concrete alive star survives the
frame. -/
theorem lowQuality_freezes_witness :
    (⟨0, 0, 0, 10, 100, 1, 1/2, 0.01, 1, ⟨255, 255, 255⟩, 0.1⟩ : ShootingStar) ∈
      (shootingFrame 8 (1/2) 0 1 ⟨9, 9, 9, 9, 9, 9, 9, 9, 9, ⟨0, 0, 0⟩, 9⟩
        ([⟨0, 0, 0, 10, 100, 1, 1/2, 0.01, 1, ⟨255, 255, 255⟩, 0.1⟩], 5)).1 := by
  apply (lowQuality_freezes 8 (1/2) 0 1 ⟨9, 9, 9, 9, 9, 9, 9, 9, 9, ⟨0, 0, 0⟩, 9⟩
    [⟨0, 0, 0, 10, 100, 1, 1/2, 0.01, 1, ⟨255, 255, 255⟩, 0.1⟩] 5 (by norm_num)).2.2
  · exact List.mem_singleton_self _
  · norm_num

/-- Claim C5, counterexample: at quality 1/2 (below the spawn-eligibility
gate) a frame leaves the only alive shooting star's life unchanged at 1/2
instead of decreasing it — already-alive stars are frozen, not advanced
toward retirement, while quality is low. -/
theorem lowQuality_life_unchanged_counterexample :
    ((shootingFrame 8 (1/2) 0 1 ⟨9, 9, 9, 9, 9, 9, 9, 9, 9, ⟨0, 0, 0⟩, 9⟩
          ([⟨0, 0, 0, 10, 100, 1, 1/2, 0.01, 1, ⟨255, 255, 255⟩, 0.1⟩], 5)).1.map
        ShootingStar.life) = [1/2] := by
  unfold shootingFrame
  rw [if_neg (by norm_num)]
  have hd : decide ((0 : ℝ) < 1/2) = true := decide_eq_true (by norm_num)
  simp only [List.filter, hd]
  rfl

/-- Iterating the shooting-star tick `n` times subtracts `n * decay` from
life and leaves decay unchanged. -/
theorem tickShootingStar_iterate_life (s : ShootingStar) (n : ℕ) :
    (tickShootingStar^[n] s).life = s.life - n * s.decay ∧
      (tickShootingStar^[n] s).decay = s.decay := by
  induction n with
  | zero => simp
  | succ n ih =>
    rw [Function.iterate_succ_apply']
    refine ⟨?_, ?_⟩
    · show (tickShootingStar^[n] s).life - (tickShootingStar^[n] s).decay = _
      rw [ih.1, ih.2]
      push_cast
      ring
    · show (tickShootingStar^[n] s).decay = s.decay
      exact ih.2

/-- Claim C10 (confirmed): every shooting star built by
`createShootingStar` starts with `life = 1` and `decay` strictly above
0.002 (speed is at least 3 in every bucket, contributing at least 0.001 on
top of the 0.002 base), so its life strictly decreases on every tick and
after 500 ticks of `drawShootingStars` it is at or below 0, i.e. retired. -/
theorem createShootingStar_lifetime (width height : ℝ) (R : SSRolls)
    (hsr : 0 ≤ R.speedR) (hdr : 0 ≤ R.decayR) :
    (createShootingStar width height R).life = 1 ∧
      1/500 < (createShootingStar width height R).decay ∧
      (∀ n : ℕ, (tickShootingStar^[n + 1] (createShootingStar width height R)).life <
        (tickShootingStar^[n] (createShootingStar width height R)).life) ∧
      (tickShootingStar^[500] (createShootingStar width height R)).life ≤ 0 := by
  have hspeed : 3 ≤ shootingSpeed R.speedRoll R.speedR := by
    unfold shootingSpeed
    split_ifs <;> linarith
  have hdecay : 1/500 < (createShootingStar width height R).decay := by
    show 1/500 < 0.002 + R.decayR * 0.015 + shootingSpeed R.speedRoll R.speedR / 30 * 0.01
    nlinarith
  have hdecay0 : 0 < (createShootingStar width height R).decay := by
    have : (0 : ℝ) < 1/500 := by norm_num
    linarith
  refine ⟨rfl, hdecay, ?_, ?_⟩
  · intro n
    rw [(tickShootingStar_iterate_life _ (n + 1)).1,
      (tickShootingStar_iterate_life _ n).1]
    have : (n : ℝ) * (createShootingStar width height R).decay <
        ((n : ℝ) + 1) * (createShootingStar width height R).decay := by
      nlinarith
    push_cast
    linarith
  · rw [(tickShootingStar_iterate_life _ 500).1]
    have hl1 : (createShootingStar width height R).life = 1 := rfl
    rw [hl1]
    push_cast
    nlinarith

/-- Claim C10, witness: the all-zero roll vector gives a shooting star with
life 1 and decay 3/1000 > 1/500. -/
theorem createShootingStar_lifetime_witness :
    (createShootingStar 800 600 ⟨0, 0, 0, 0, 0, 0, 0, 0, 0, 0, 0, 0, 0, 0, 0⟩).life = 1 ∧
      1/500 < (createShootingStar 800 600 ⟨0, 0, 0, 0, 0, 0, 0, 0, 0, 0, 0, 0, 0, 0, 0⟩).decay := by
  have h := createShootingStar_lifetime 800 600
    ⟨0, 0, 0, 0, 0, 0, 0, 0, 0, 0, 0, 0, 0, 0, 0⟩ le_rfl le_rfl
  exact ⟨h.1, h.2.1⟩

/-- Claim C7, counterexample: two galaxies realizable by `initGalaxies` —
size 10 (distance roll 0.4, size roll 0) and size 100 (distance roll 0.95,
size roll 1/11) — get parallax factors 31/600 and 13/600 respectively: the
strictly bigger galaxy gets the strictly smaller parallax factor. -/
theorem galaxyParallax_counterexample :
    (mkGalaxyCore 0.4 0).size < (mkGalaxyCore 0.95 (1/11)).size ∧
      (mkGalaxyCore 0.95 (1/11)).parallaxFactor < (mkGalaxyCore 0.4 0).parallaxFactor := by
  constructor <;> norm_num [mkGalaxyCore, galaxySize, galaxyParallaxFactor]

/-- Claim C7 (corrected): the star generator's parallax factor
`0.02 + (size/3)*0.08` is monotone nondecreasing in size, but the galaxy
generator's `0.005 + (1 - size/150)*0.05` is monotone NONincreasing in
size — for galaxies, bigger objects get smaller factors, the opposite of
the claimed direction. -/
theorem parallaxFactor_monotone (a b : ℝ) (hab : a ≤ b) :
    starParallaxFactor a ≤ starParallaxFactor b ∧
      galaxyParallaxFactor b ≤ galaxyParallaxFactor a := by
  unfold starParallaxFactor galaxyParallaxFactor
  constructor <;> nlinarith

/-- Claim C7, witness: monotonicity instantiated at sizes 1 and 2. -/
theorem parallaxFactor_monotone_witness :
    starParallaxFactor 1 ≤ starParallaxFactor 2 ∧
      galaxyParallaxFactor 2 ≤ galaxyParallaxFactor 1 :=
  parallaxFactor_monotone 1 2 (by norm_num)

/-- Claim C2 (corrected): `initStars` takes no density configuration and
returns exactly `floor(width*height / STAR_DENSITY_FACTOR)` stars with
`STAR_DENSITY_FACTOR = 600`, unscaled by any multiplier; the
`initGalaxies` count lies in `[MIN_GALAXIES, MAX_GALAXIES] = [100, 200]`
and the `initNebulas` count lies in `[MIN_NEBULAS, MAX_NEBULAS] = [6, 12]`,
both with no tier multiplier applied. -/
theorem generator_counts (width height : ℝ) (rolls : ℕ → StarRolls) (rg rn : ℝ)
    (hg0 : 0 ≤ rg) (hg1 : rg < 1) (hn0 : 0 ≤ rn) (hn1 : rn < 1) :
    (initStars width height rolls).length =
        (⌊width * height / STAR_DENSITY_FACTOR⌋).toNat ∧
      MIN_GALAXIES ≤ numGalaxies rg ∧ numGalaxies rg ≤ MAX_GALAXIES ∧
      MIN_NEBULAS ≤ numNebulas rn ∧ numNebulas rn ≤ MAX_NEBULAS := by
  have h101 : (MAX_GALAXIES : ℝ) - (MIN_GALAXIES : ℝ) + 1 = 101 := by
    norm_num [MIN_GALAXIES, MAX_GALAXIES]
  have h7 : (MAX_NEBULAS : ℝ) - (MIN_NEBULAS : ℝ) + 1 = 7 := by
    norm_num [MIN_NEBULAS, MAX_NEBULAS]
  have hgfl0 : (0 : ℤ) ≤ ⌊rg * ((MAX_GALAXIES : ℝ) - (MIN_GALAXIES : ℝ) + 1)⌋ := by
    apply Int.floor_nonneg.mpr
    rw [h101]
    exact mul_nonneg hg0 (by norm_num)
  have hgfl1 : ⌊rg * ((MAX_GALAXIES : ℝ) - (MIN_GALAXIES : ℝ) + 1)⌋ ≤ 100 := by
    have hlt : rg * ((MAX_GALAXIES : ℝ) - (MIN_GALAXIES : ℝ) + 1) < ((101 : ℤ) : ℝ) := by
      rw [h101]
      push_cast
      nlinarith
    have := Int.floor_lt.mpr hlt
    omega
  have hnfl0 : (0 : ℤ) ≤ ⌊rn * ((MAX_NEBULAS : ℝ) - (MIN_NEBULAS : ℝ) + 1)⌋ := by
    apply Int.floor_nonneg.mpr
    rw [h7]
    exact mul_nonneg hn0 (by norm_num)
  have hnfl1 : ⌊rn * ((MAX_NEBULAS : ℝ) - (MIN_NEBULAS : ℝ) + 1)⌋ ≤ 6 := by
    have hlt : rn * ((MAX_NEBULAS : ℝ) - (MIN_NEBULAS : ℝ) + 1) < ((7 : ℤ) : ℝ) := by
      rw [h7]
      push_cast
      nlinarith
    have := Int.floor_lt.mpr hlt
    omega
  refine ⟨by simp [initStars], ?_, ?_, ?_, ?_⟩
  · unfold numGalaxies
    unfold MIN_GALAXIES at *
    omega
  · unfold numGalaxies
    unfold MIN_GALAXIES MAX_GALAXIES at *
    omega
  · unfold numNebulas
    unfold MIN_NEBULAS at *
    omega
  · unfold numNebulas
    unfold MIN_NEBULAS MAX_NEBULAS at *
    omega

/-- Claim C2, witness: the generator-count facts at width 1200, height 1,
galaxy-count roll 1/2 and nebula-count roll 1/3. -/
theorem generator_counts_witness :
    (initStars 1200 1 fun _ => ⟨0, 0, 0, 0, 0, 0, 0, 0, 0, 0, 0⟩).length =
        (⌊(1200 : ℝ) * 1 / STAR_DENSITY_FACTOR⌋).toNat ∧
      MIN_GALAXIES ≤ numGalaxies (1/2) ∧ numGalaxies (1/2) ≤ MAX_GALAXIES ∧
      MIN_NEBULAS ≤ numNebulas (1/3) ∧ numNebulas (1/3) ≤ MAX_NEBULAS :=
  generator_counts 1200 1 (fun _ => ⟨0, 0, 0, 0, 0, 0, 0, 0, 0, 0, 0⟩) (1/2) (1/3)
    (by norm_num) (by norm_num) (by norm_num) (by norm_num)

/-- Claim C2, counterexample: at width 1200, height 1 and the low tier's
`starDensityMultiplier = 0.5`, the spec's config-scaled count formula
gives 1 star while `initStars` — which takes no configuration — returns 2,
so the generator does not honour the config-scaled density contract. -/
theorem generator_counts_counterexample :
    (initStars 1200 1 fun _ => ⟨0, 0, 0, 0, 0, 0, 0, 0, 0, 0, 0⟩).length = 2 ∧
      specStarCount 1200 1 0.5 = 1 ∧
      ((initStars 1200 1 fun _ => ⟨0, 0, 0, 0, 0, 0, 0, 0, 0, 0, 0⟩).length : ℤ) ≠
        specStarCount 1200 1 0.5 := by
  have hlen : (initStars 1200 1 fun _ => ⟨0, 0, 0, 0, 0, 0, 0, 0, 0, 0, 0⟩).length = 2 := by
    simp only [initStars, List.length_map, List.length_range, STAR_DENSITY_FACTOR]
    norm_num
    rfl
  have hspec : specStarCount 1200 1 0.5 = 1 := by
    unfold specStarCount STAR_DENSITY_FACTOR
    norm_num
  refine ⟨hlen, hspec, ?_⟩
  rw [hlen, hspec]
  norm_num

/-- The centre-to-corner distance of an 800×600 canvas is 500. -/
theorem sqrt_canvas_800_600 :
    Real.sqrt ((800 : ℝ) * 0.5 * (800 * 0.5) + 600 * 0.5 * (600 * 0.5)) = 500 := by
  rw [show (800 : ℝ) * 0.5 * (800 * 0.5) + 600 * 0.5 * (600 * 0.5) = 500 ^ 2 by norm_num]
  exact Real.sqrt_sq (by norm_num)

/-- Claim C8 (corrected): in the radial-drift draw variant a star within
one pixel of the viewport centre takes the near-centre special case: at
every drift offset it is drawn at its static position plus only the
pointer-parallax offset, with no division by the near-zero distance. -/
theorem drawStarsV0_center (star : Star)
    (mouseX mouseY canvasWidth canvasHeight driftOffset : ℝ)
    (h : origDist star.x star.y canvasWidth canvasHeight ≤ 1) :
    drawStarsPosV0 star mouseX mouseY canvasWidth canvasHeight driftOffset =
      (star.x + mouseX * star.parallaxFactor * (canvasWidth * 0.5),
       star.y + mouseY * star.parallaxFactor * (canvasHeight * 0.5)) := by
  simp only [drawStarsPosV0]
  rw [if_neg (not_lt.mpr h)]

/-- Claim C8, witness: a star exactly at the centre of an 800×600 canvas
stays at (400, 300) at drift offset 7 with the pointer centred. -/
theorem drawStarsV0_center_witness :
    drawStarsPosV0 ⟨400, 300, 1, 0.5, 0.02, 0, ⟨255, 255, 255⟩, 0.05⟩ 0 0 800 600 7 =
      (400, 300) := by
  have hd : origDist 400 300 800 600 = 0 := by
    unfold origDist
    rw [show ((400 : ℝ) - 800 * 0.5) * (400 - 800 * 0.5) +
        (300 - 600 * 0.5) * (300 - 600 * 0.5) = 0 by norm_num]
    exact Real.sqrt_zero
  have h := drawStarsV0_center ⟨400, 300, 1, 0.5, 0.02, 0, ⟨255, 255, 255⟩, 0.05⟩
    0 0 800 600 7 (by
      show origDist 400 300 800 600 ≤ 1
      rw [hd]
      norm_num)
  rw [h]
  norm_num

/-- Claim C8, counterexample: `drawNebulas` in `drawFunctions.ts` has no
centre special case: a nebula exactly at the centre of an 800×600 canvas
is drawn at (650, 300) at drift offset 10, receiving the full drift
displacement along the `atan2(0,0) = 0` direction instead of being treated
as zero displacement with a parallax-only offset (which would leave it at
(400, 300); this variant applies no pointer parallax at all). -/
theorem drawNebulas_center_counterexample :
    drawNebulasPos 400 300 800 600 10 = (650, 300) ∧
      ((650 : ℝ), (300 : ℝ)) ≠ ((400 : ℝ), (300 : ℝ)) := by
  constructor
  · simp only [drawNebulasPos]
    have hangle : jsAtan2 ((300 : ℝ) - 600 * 0.5) ((400 : ℝ) - 800 * 0.5) = 0 := by
      norm_num [jsAtan2]
    have hdist : Real.sqrt (((400 : ℝ) - 800 * 0.5) * ((400 : ℝ) - 800 * 0.5) +
        ((300 : ℝ) - 600 * 0.5) * ((300 : ℝ) - 600 * 0.5)) = 0 := by
      rw [show ((400 : ℝ) - 800 * 0.5) * ((400 : ℝ) - 800 * 0.5) +
          ((300 : ℝ) - 600 * 0.5) * ((300 : ℝ) - 600 * 0.5) = 0 by norm_num]
      exact Real.sqrt_zero
    rw [hangle, hdist, sqrt_canvas_800_600]
    rw [show (0 : ℝ) / 500 + 10 * 0.05 = 1 / 2 by norm_num]
    rw [jsMod_eq_self _ _ (by norm_num) (by norm_num)]
    rw [Real.cos_zero, Real.sin_zero, Prod.mk.injEq]
    norm_num
  · rw [Ne, Prod.mk.injEq]
    norm_num

end

end StarField
